import Mathlib

/-!
Verification of the gunrock DC (degree-centrality) enactor
(`dc_enactor.cuh`) and the connected-components dispatch layer
(`cc_app.cu`), via a shallow embedding of their host-side control flow.

CUDA runtime calls are modelled by their outcome: each fallible call is
an input (`CudaError`) in an environment record, and the embedded
function mirrors the source's branching on those outcomes.  Device
arrays are Lean lists; device kernels that compute pure data (radix
sort, exclusive scan) are embedded as the corresponding pure functions.
-/

namespace Gunrock

/-- CUDA runtime status codes, restricted to the ones the DC enactor
produces or tests for. -/
inductive CudaError where
  | cudaSuccess
  | cudaErrorInvalidConfiguration
  | cudaErrorInvalidDeviceFunction
  | cudaErrorMemoryAllocation
  | otherError (code : Nat)
deriving DecidableEq, Repr

/-- Modelled from the spec: `util::GRError` (gunrock/util/error_utils,
not under src/) prints the message and location and returns the error
code it was given, unchanged. -/
def GRError (e : CudaError) : CudaError := e

/-- Modelled from the spec: `WorkProgress::CheckOverflow` (not under
src/) "compares recorded write offset to capacity"; the run overflows
when the recorded length exceeds the configured capacity. -/
def CheckOverflow (writeOffset capacity : Nat) : Bool :=
  capacity < writeOffset

/-- Advance strategy selector of `gunrock::oprtr::advance::KernelPolicy`;
the DC enactor instantiates its policy with mode `LB`. -/
inductive AdvanceMode where
  | LB
  | TWC_FORWARD
deriving DecidableEq, Repr

/-- Descending-by-degree order on (degree, vertex-id) pairs: `a` comes
no later than `b` when `b`'s key is at most `a`'s key. -/
def degreeDesc : (Nat × Nat) → (Nat × Nat) → Prop := fun a b => b.1 ≤ a.1

instance : DecidableRel degreeDesc := fun a b => Nat.decLe b.1 a.1

instance : IsTotal (Nat × Nat) degreeDesc :=
  ⟨fun a b => Nat.le_total b.1 a.1⟩

instance : IsTrans (Nat × Nat) degreeDesc :=
  ⟨fun _ _ _ h1 h2 => Nat.le_trans h2 h1⟩

/-- Modelled from the spec: `util::CUBRadixSort<Value, VertexId>(false,
nodes, d_degrees, d_node_id)` (gunrock/util/sort_utils.cuh, not under
src/) sorts the (degree key, vertex-id value) pairs descending by key;
radix sort is stable, so pairs with equal keys keep their input order. -/
def CUBRadixSortPairs (pairs : List (Nat × Nat)) : List (Nat × Nat) :=
  List.insertionSort degreeDesc pairs

/-- Exclusive prefix scan with running accumulator `acc`. -/
def exclusiveSumFrom (acc : Nat) : List Nat → List Nat
  | [] => []
  | x :: xs => acc :: exclusiveSumFrom (acc + x) xs

/-- `cub::DeviceScan::ExclusiveSum` semantics: element `i` of the output
is the sum of input elements `0 .. i-1`. -/
def ExclusiveSum (l : List Nat) : List Nat := exclusiveSumFrom 0 l

/-- Modelled from the spec: `DCProblem` (dc_problem.cuh, not under src/)
initializes `d_node_id` to the vertex identifiers `0 .. nodes-1`. -/
def d_node_id (n : Nat) : List Nat := List.range n

/-- The (degree, vertex-id) pair array handed to the device radix sort. -/
def degreeNodePairs (degrees : List Nat) : List (Nat × Nat) :=
  degrees.zip (d_node_id degrees.length)

/-- The first `K` (degree, vertex-id) pairs after the descending sort:
the vertices the top-K extraction selects. -/
def dcTopKSelected (degrees : List Nat) (K : Nat) : List (Nat × Nat) :=
  (CUBRadixSortPairs (degreeNodePairs degrees)).take K

/-- Contents of `d_sub_row_offsets` after `EnactDC`'s scan step: the
exclusive prefix sum over the first `top_nodes` entries of the sorted
degree array. -/
def d_sub_row_offsets (degrees : List Nat) (K : Nat) : List Nat :=
  ExclusiveSum (((CUBRadixSortPairs (degreeNodePairs degrees)).map Prod.fst).take K)

/-- The induced subgraph's row offsets as the spec words them: entry `i`
is the sum of the degrees of the first `i` selected vertices. -/
def specInducedRowOffsets (degrees : List Nat) (K : Nat) : List Nat :=
  (List.range K).map (fun i => (((dcTopKSelected degrees K).map Prod.fst).take i).sum)

theorem exclusiveSumFrom_eq (l : List Nat) :
    ∀ acc, exclusiveSumFrom acc l =
      (List.range l.length).map (fun i => acc + (l.take i).sum) := by
  induction l with
  | nil => intro acc; rfl
  | cons x xs ih =>
    intro acc
    rw [List.length_cons, List.range_succ_eq_map, List.map_cons, List.map_map]
    simp only [exclusiveSumFrom, ih]
    congr 1
    simp
    intro a _
    omega

theorem length_CUBRadixSortPairs (pairs : List (Nat × Nat)) :
    (CUBRadixSortPairs pairs).length = pairs.length :=
  (List.perm_insertionSort degreeDesc pairs).length_eq

/-- Outcomes of the fallible CUDA calls `EnactDC` makes, plus the inputs
of the overflow check and the `DEBUG` flag, in source order. -/
structure EnactDCEnv where
  setupResult : CudaError
  baseSetupResult : CudaError
  scannedEdgesMalloc : CudaError
  advanceSync : CudaError
  getQueueLength : CudaError
  checkOverflowCall : CudaError
  frontierWriteOffset : Nat
  frontierCapacity : Nat
  debug : Bool
deriving DecidableEq, Repr

/-- Observable outcome of one `EnactDC` call: the returned status, the
lifecycle of the `d_scanned_edges` scratch array, how many times the
advance kernel was launched, which frontier buffers it read and wrote,
and the contents of `d_sub_row_offsets`. -/
structure EnactDCResult where
  retval : CudaError
  scannedEdgesAllocated : Bool
  scannedEdgesFreed : Bool
  advanceLaunches : Nat
  advanceReadBuffer : Option Nat
  advanceWriteBuffer : Option Nat
  subRowOffsets : List Nat
deriving DecidableEq, Repr

/-- Host control flow of `DCEnactor::EnactDC` (dc_enactor.cuh).  The
`do { ... } while(0)` body breaks to the trailing
`if (d_scanned_edges) cudaFree(d_scanned_edges)` on every failure except
the `cudaMalloc` of `d_scanned_edges` itself, which `return`s directly;
`finish` is that trailing free.  The advance kernel reads the frontier
from `d_keys[selector]` and writes `d_keys[selector ^ 1]` with
`selector = 0`. -/
def EnactDC (mode : AdvanceMode) (degrees : List Nat) (topNodes : Nat)
    (env : EnactDCEnv) : EnactDCResult :=
  let base : EnactDCResult :=
    { retval := CudaError.cudaSuccess
      scannedEdgesAllocated := false
      scannedEdgesFreed := false
      advanceLaunches := 0
      advanceReadBuffer := none
      advanceWriteBuffer := none
      subRowOffsets := [] }
  let finish : EnactDCResult → EnactDCResult :=
    fun r => { r with scannedEdgesFreed := r.scannedEdgesAllocated }
  if env.setupResult ≠ CudaError.cudaSuccess then
    finish { base with retval := env.setupResult }
  else if env.baseSetupResult ≠ CudaError.cudaSuccess then
    finish { base with retval := env.baseSetupResult }
  else
    -- CUBRadixSort sorts (d_degrees, d_node_id); the two-phase
    -- cub::DeviceScan::ExclusiveSum fills d_sub_row_offsets
    let scanned : EnactDCResult :=
      { base with subRowOffsets := d_sub_row_offsets degrees topNodes }
    -- frontier_attribute: queue_length := top_nodes, queue_index := 0,
    -- selector := 0, queue_reset := true
    let selector : Nat := 0
    if mode = AdvanceMode.LB ∧ env.scannedEdgesMalloc ≠ CudaError.cudaSuccess then
      { scanned with retval := GRError env.scannedEdgesMalloc }
    else
      let launched : EnactDCResult :=
        { scanned with
          scannedEdgesAllocated := decide (mode = AdvanceMode.LB)
          advanceLaunches := 1
          advanceReadBuffer := some selector
          advanceWriteBuffer := some (selector ^^^ 1) }
      if env.debug = true ∧ env.advanceSync ≠ CudaError.cudaSuccess then
        finish { launched with retval := GRError env.advanceSync }
      else if env.getQueueLength ≠ CudaError.cudaSuccess then
        finish { launched with retval := env.getQueueLength }
      else if env.checkOverflowCall ≠ CudaError.cudaSuccess then
        finish { launched with retval := env.checkOverflowCall }
      else if CheckOverflow env.frontierWriteOffset env.frontierCapacity then
        finish { launched with retval := GRError CudaError.cudaErrorInvalidConfiguration }
      else
        finish launched

/-- Advance mode of the single tuned `AdvanceKernelPolicy` that
`DCEnactor::Enact` instantiates for sm >= 300. -/
def dcAdvanceKernelPolicyMode : AdvanceMode := AdvanceMode.LB

/-- Observable outcome of `DCEnactor::Enact`. -/
structure EnactResult where
  retval : CudaError
  enactDCCalled : Bool
  advanceLaunches : Nat
deriving DecidableEq, Repr

/-- Host control flow of `DCEnactor::Enact` (dc_enactor.cuh): devices of
compute capability at least 300 get the tuned kernel policies and run
`EnactDC`; anything lower returns `cudaErrorInvalidDeviceFunction`
without reaching `EnactDC`. -/
def Enact (deviceSmVersion : Nat) (degrees : List Nat) (topNodes : Nat)
    (env : EnactDCEnv) : EnactResult :=
  if 300 ≤ deviceSmVersion then
    let r := EnactDC dcAdvanceKernelPolicyMode degrees topNodes env
    { retval := r.retval
      enactDCCalled := true
      advanceLaunches := r.advanceLaunches }
  else
    { retval := CudaError.cudaErrorInvalidDeviceFunction
      enactDCCalled := false
      advanceLaunches := 0 }

/-- Outcomes of the CUDA calls `DCEnactor::Setup` makes, in source
order. -/
structure SetupEnv where
  hostAllocResult : CudaError
  getDevicePointerResult : CudaError
  eventCreateResult : CudaError
  bindTextureResult : CudaError
deriving DecidableEq, Repr

/-- Resource-lifecycle state of one `DCEnactor` object: whether the
`done` pointer is non-null, whether the throttle event exists, and how
many times each allocation / release call has run on this object. -/
structure DCState where
  done : Bool
  throttleEventCreated : Bool
  hostAllocCount : Nat
  eventCreateCount : Nat
  hostFreeCount : Nat
  eventDestroyCount : Nat
deriving DecidableEq, Repr

/-- State established by the `DCEnactor` constructor: `done(NULL)`,
`d_done(NULL)`, nothing allocated yet. -/
def DCEnactorInit : DCState :=
  { done := false
    throttleEventCreated := false
    hostAllocCount := 0
    eventCreateCount := 0
    hostFreeCount := 0
    eventDestroyCount := 0 }

/-- Host control flow of `DCEnactor::Setup` (dc_enactor.cuh): when
`done` is null it runs `cudaHostAlloc` (on success `done` becomes
non-null), `cudaHostGetDevicePointer`, and
`cudaEventCreateWithFlags`, returning the first failure; when `done` is
already non-null the whole block is skipped.  Afterwards it binds the
row-offsets texture inside a `do {} while(0)`. -/
def dcSetup (env : SetupEnv) (s : DCState) : DCState × CudaError :=
  if s.done = false then
    let s1 : DCState := { s with hostAllocCount := s.hostAllocCount + 1 }
    if env.hostAllocResult ≠ CudaError.cudaSuccess then
      (s1, env.hostAllocResult)
    else
      let s2 : DCState := { s1 with done := true }
      if env.getDevicePointerResult ≠ CudaError.cudaSuccess then
        (s2, env.getDevicePointerResult)
      else
        let s3 : DCState := { s2 with eventCreateCount := s2.eventCreateCount + 1 }
        if env.eventCreateResult ≠ CudaError.cudaSuccess then
          (s3, env.eventCreateResult)
        else
          let s4 : DCState := { s3 with throttleEventCreated := true }
          if env.bindTextureResult ≠ CudaError.cudaSuccess then
            (s4, env.bindTextureResult)
          else
            (s4, CudaError.cudaSuccess)
  else
    if env.bindTextureResult ≠ CudaError.cudaSuccess then
      (s, env.bindTextureResult)
    else
      (s, CudaError.cudaSuccess)

/-- Host control flow of `~DCEnactor` (dc_enactor.cuh): when `done` is
non-null it calls `cudaFreeHost(done)` and
`cudaEventDestroy(throttle_event)` once each; when `done` is null it
does nothing. -/
def dcDestructor (s : DCState) : DCState :=
  if s.done then
    { s with
      hostFreeCount := s.hostFreeCount + 1
      eventDestroyCount := s.eventDestroyCount + 1 }
  else
    s

/-- Per-enactor counters read by `GetStatistics`. -/
structure DCStats where
  total_runtimes : Nat
  total_lifetimes : Nat
  total_queued : Nat
  iteration : Int
deriving DecidableEq, Repr

/-- Host-visible steps of `GetStatistics`, in order. -/
inductive StatAction where
  | cudaThreadSynchronize
  | readCounters
deriving DecidableEq, Repr

/-- Observable outcome of `DCEnactor::GetStatistics`. -/
structure DCStatistics where
  actions : List StatAction
  total_queued : Nat
  search_depth : Int
  avg_duty : ℚ

/-- Host control flow of `DCEnactor::GetStatistics` (dc_enactor.cuh):
`cudaThreadSynchronize()` first, then the counter reads; the duty is
`total_runtimes / total_lifetimes` when `total_lifetimes > 0` and `0.0`
otherwise. -/
def GetStatistics (s : DCStats) : DCStatistics :=
  { actions := [StatAction.cudaThreadSynchronize, StatAction.readCounters]
    total_queued := s.total_queued
    search_depth := s.iteration
    avg_duty :=
      if 0 < s.total_lifetimes then
        (s.total_runtimes : ℚ) / (s.total_lifetimes : ℚ)
      else 0 }

/-- Modelled from the spec: vertex-id type tags of `GRTypes`
(gunrock.h, not under src/). -/
inductive VtxidType where
  | VTXID_INT
  | VTXID_LLONG
deriving DecidableEq, Repr

/-- Modelled from the spec: graph-size type tags of `GRTypes`
(gunrock.h, not under src/). -/
inductive SizetType where
  | SIZET_INT
  | SIZET_LLONG
deriving DecidableEq, Repr

/-- Modelled from the spec: attribute-value type tags of `GRTypes`
(gunrock.h, not under src/). -/
inductive ValueType where
  | VALUE_INT
  | VALUE_UINT
  | VALUE_FLOAT
deriving DecidableEq, Repr

/-- The data-type tag triple `dispatch_cc` switches on. -/
structure GRTypes where
  VTXID_TYPE : VtxidType
  SIZET_TYPE : SizetType
  VALUE_TYPE : ValueType
deriving DecidableEq, Repr

/-- Output side of a `GRGraph`: `node_value1` holds the host
component-id array once a run stored it, and nothing before. -/
structure GRGraphO where
  node_value1 : Option (List Int)
deriving DecidableEq, Repr

/-- Observable outcome of `dispatch_cc`: the output graph record, and
whether the templated CC run (`instrumentedCC`) was invoked.  The
function returns `void`, so `errorSignaled` records whether any error
reached the caller (it never does). -/
structure DispatchOutcome where
  graph_o : GRGraphO
  ranCC : Bool
  errorSignaled : Bool
deriving DecidableEq, Repr

/-- Host control flow of `dispatch_cc` (cc_app.cu): nested switches on
the three type tags; only (VTXID_INT, SIZET_INT, VALUE_INT) builds the
CSR and calls `instrumentedCC` (whose extracted component-id array is
abstracted as `ccResult`); the (INT, INT, UINT) and (INT, INT, FLOAT)
arms only print "Not Yet Support This DataType Combination."; every
other tag value falls through a switch with no matching case. -/
def dispatch_cc (data_t : GRTypes) (graph_o : GRGraphO) (ccResult : List Int) :
    DispatchOutcome :=
  match data_t.VTXID_TYPE, data_t.SIZET_TYPE, data_t.VALUE_TYPE with
  | VtxidType.VTXID_INT, SizetType.SIZET_INT, ValueType.VALUE_INT =>
    { graph_o := { node_value1 := some ccResult }
      ranCC := true
      errorSignaled := false }
  | VtxidType.VTXID_INT, SizetType.SIZET_INT, ValueType.VALUE_UINT =>
    { graph_o := graph_o, ranCC := false, errorSignaled := false }
  | VtxidType.VTXID_INT, SizetType.SIZET_INT, ValueType.VALUE_FLOAT =>
    { graph_o := graph_o, ranCC := false, errorSignaled := false }
  | _, _, _ =>
    { graph_o := graph_o, ranCC := false, errorSignaled := false }

/-- Host control flow of the public entry point `cc` (cc_app.cu).  It
fixes the tag triple to (VTXID_INT, SIZET_INT, VALUE_INT), initializes
`unsigned int num_components = 0`, runs `gunrock_cc`/`dispatch_cc`
(computed component ids abstracted as `ccResult`), `memcpy`s
`num_nodes` entries of `graph_o->node_value1` into `component`, and
returns `num_components`, which nothing ever assigned to. -/
def cc (ccResult : List Int) (num_nodes : Nat) : List Int × Int :=
  let data_t : GRTypes :=
    { VTXID_TYPE := VtxidType.VTXID_INT
      SIZET_TYPE := SizetType.SIZET_INT
      VALUE_TYPE := ValueType.VALUE_INT }
  let num_components : Int := 0
  let outcome := dispatch_cc data_t { node_value1 := none } ccResult
  let component := (outcome.graph_o.node_value1.getD []).take num_nodes
  (component, num_components)

/-- A `Setup` environment in which every CUDA call succeeds. -/
def allOkSetupEnv : SetupEnv :=
  { hostAllocResult := CudaError.cudaSuccess
    getDevicePointerResult := CudaError.cudaSuccess
    eventCreateResult := CudaError.cudaSuccess
    bindTextureResult := CudaError.cudaSuccess }

/-- An `EnactDC` environment in which every CUDA call succeeds and the
frontier stays within capacity. -/
def allOkEnactEnv : EnactDCEnv :=
  { setupResult := CudaError.cudaSuccess
    baseSetupResult := CudaError.cudaSuccess
    scannedEdgesMalloc := CudaError.cudaSuccess
    advanceSync := CudaError.cudaSuccess
    getQueueLength := CudaError.cudaSuccess
    checkOverflowCall := CudaError.cudaSuccess
    frontierWriteOffset := 1
    frontierCapacity := 10
    debug := false }

/-- An `EnactDC` environment in which every CUDA call succeeds but the
advance kernel left a recorded write offset above the capacity. -/
def overflowEnactEnv : EnactDCEnv :=
  { allOkEnactEnv with frontierWriteOffset := 5, frontierCapacity := 2 }

/-- Claim C8: the public entry point `cc` returns the integer 0 as its
component count for every input: `num_components` is initialized to
zero and never updated from the run's results, even though the
component-id array itself is copied out. -/
theorem cc_returns_zero_components (ccResult : List Int) (num_nodes : Nat) :
    (cc ccResult num_nodes).2 = 0 ∧
    (cc ccResult num_nodes).1 = ccResult.take num_nodes :=
  ⟨rfl, rfl⟩

/-- Claim C9: for every data-type tag combination other than
(VTXID_INT, SIZET_INT, VALUE_INT), `dispatch_cc` performs no algorithm
run, leaves the output graph unmodified, and signals no error. -/
theorem dispatch_cc_unsupported_noop (data_t : GRTypes) (graph_o : GRGraphO)
    (ccResult : List Int)
    (h : data_t ≠ { VTXID_TYPE := VtxidType.VTXID_INT
                    SIZET_TYPE := SizetType.SIZET_INT
                    VALUE_TYPE := ValueType.VALUE_INT }) :
    dispatch_cc data_t graph_o ccResult =
      { graph_o := graph_o, ranCC := false, errorSignaled := false } := by
  obtain ⟨v, sz, val⟩ := data_t
  cases v <;> cases sz <;> cases val <;> first
    | rfl
    | exact absurd rfl h

theorem dispatch_cc_unsupported_noop_witness :
    dispatch_cc
        { VTXID_TYPE := VtxidType.VTXID_INT
          SIZET_TYPE := SizetType.SIZET_INT
          VALUE_TYPE := ValueType.VALUE_FLOAT }
        { node_value1 := none } [0, 1] =
      { graph_o := { node_value1 := none }, ranCC := false, errorSignaled := false } :=
  dispatch_cc_unsupported_noop _ _ _ (by decide)

/-- Claim C5: `GetStatistics` synchronizes the device before reading,
then returns the cumulative queued count, the iteration count as the
search depth, and an average duty of `total_runtimes / total_lifetimes`
when `total_lifetimes > 0` and exactly 0 otherwise. -/
theorem getStatistics_spec (s : DCStats) :
    (GetStatistics s).actions =
      [StatAction.cudaThreadSynchronize, StatAction.readCounters]
  ∧ (GetStatistics s).total_queued = s.total_queued
  ∧ (GetStatistics s).search_depth = s.iteration
  ∧ (0 < s.total_lifetimes →
      (GetStatistics s).avg_duty = (s.total_runtimes : ℚ) / (s.total_lifetimes : ℚ))
  ∧ (s.total_lifetimes = 0 → (GetStatistics s).avg_duty = 0) := by
  refine ⟨rfl, rfl, rfl, ?_, ?_⟩
  · intro h
    simp [GetStatistics, h]
  · intro h
    simp [GetStatistics, h]

theorem getStatistics_spec_witness :
    (GetStatistics
        { total_runtimes := 3, total_lifetimes := 4, total_queued := 7, iteration := 2 }).avg_duty =
      ((3 : Nat) : ℚ) / ((4 : Nat) : ℚ)
  ∧ (GetStatistics
        { total_runtimes := 3, total_lifetimes := 0, total_queued := 7, iteration := 2 }).avg_duty = 0 :=
  ⟨(getStatistics_spec
      { total_runtimes := 3, total_lifetimes := 4, total_queued := 7, iteration := 2 }).2.2.2.1
      (by decide),
   (getStatistics_spec
      { total_runtimes := 3, total_lifetimes := 0, total_queued := 7, iteration := 2 }).2.2.2.2
      rfl⟩

theorem dcSetup_done_noalloc (env : SetupEnv) (t : DCState) (h : t.done = true) :
    (dcSetup env t).1 = t := by
  unfold dcSetup
  rw [h]
  simp only [Bool.true_eq_false, if_false]
  split <;> rfl

/-- Claim C4: `DCEnactor::Setup` is idempotent — when `done` is already
non-null the call changes no enactor state (no new allocation); when
`done` is null it performs the host allocation; and once a call has made
`done` non-null, repeating `Setup` leaves the state unchanged. -/
theorem dcSetup_idempotent (env env2 : SetupEnv) (s : DCState) :
    (s.done = true → (dcSetup env s).1 = s)
  ∧ (s.done = false →
      (dcSetup env s).1.hostAllocCount = s.hostAllocCount + 1)
  ∧ ((dcSetup env s).1.done = true →
      (dcSetup env2 (dcSetup env s).1).1 = (dcSetup env s).1) := by
  refine ⟨dcSetup_done_noalloc env s, ?_, dcSetup_done_noalloc env2 (dcSetup env s).1⟩
  intro h
  unfold dcSetup
  rw [h]
  simp only [if_true]
  split
  · rfl
  · split
    · rfl
    · split
      · rfl
      · split <;> rfl

theorem dcSetup_idempotent_witness :
    (dcSetup allOkSetupEnv DCEnactorInit).1.hostAllocCount =
      DCEnactorInit.hostAllocCount + 1
  ∧ (dcSetup allOkSetupEnv (dcSetup allOkSetupEnv DCEnactorInit).1).1 =
      (dcSetup allOkSetupEnv DCEnactorInit).1 :=
  ⟨(dcSetup_idempotent allOkSetupEnv allOkSetupEnv DCEnactorInit).2.1 rfl,
   (dcSetup_idempotent allOkSetupEnv allOkSetupEnv DCEnactorInit).2.2 (by decide)⟩

theorem dcSetup_success_state (env : SetupEnv)
    (h : (dcSetup env DCEnactorInit).2 = CudaError.cudaSuccess) :
    (dcSetup env DCEnactorInit).1 =
      { done := true, throttleEventCreated := true, hostAllocCount := 1,
        eventCreateCount := 1, hostFreeCount := 0, eventDestroyCount := 0 } := by
  unfold dcSetup DCEnactorInit at h ⊢
  split_ifs at h ⊢ <;> simp_all

/-- Claim C6: the destructor frees the pinned completion flag and
destroys the throttle event exactly once, guarded by the null check on
`done`: with `done` null (Setup never run, or never allocated) it frees
nothing; with `done` non-null each release call runs exactly once, and
after a successful `Setup` from the freshly constructed state the final
release counts are exactly 1. -/
theorem dcDestructor_frees_once (env : SetupEnv) (s : DCState) :
    (dcDestructor DCEnactorInit = DCEnactorInit)
  ∧ (s.done = false → dcDestructor s = s)
  ∧ (s.done = true →
      (dcDestructor s).hostFreeCount = s.hostFreeCount + 1 ∧
      (dcDestructor s).eventDestroyCount = s.eventDestroyCount + 1)
  ∧ ((dcSetup env DCEnactorInit).2 = CudaError.cudaSuccess →
      (dcDestructor (dcSetup env DCEnactorInit).1).hostFreeCount = 1 ∧
      (dcDestructor (dcSetup env DCEnactorInit).1).eventDestroyCount = 1) := by
  refine ⟨rfl, ?_, ?_, ?_⟩
  · intro h
    unfold dcDestructor
    rw [h]
    rfl
  · intro h
    unfold dcDestructor
    rw [h]
    exact ⟨rfl, rfl⟩
  · intro h
    rw [dcSetup_success_state env h]
    exact ⟨rfl, rfl⟩

theorem dcDestructor_frees_once_witness :
    (dcDestructor
        { done := true, throttleEventCreated := true, hostAllocCount := 1,
          eventCreateCount := 1, hostFreeCount := 0, eventDestroyCount := 0 }).hostFreeCount = 0 + 1
  ∧ (dcDestructor (dcSetup allOkSetupEnv DCEnactorInit).1).hostFreeCount = 1
  ∧ (dcDestructor (dcSetup allOkSetupEnv DCEnactorInit).1).eventDestroyCount = 1 :=
  ⟨((dcDestructor_frees_once allOkSetupEnv
      { done := true, throttleEventCreated := true, hostAllocCount := 1,
        eventCreateCount := 1, hostFreeCount := 0, eventDestroyCount := 0 }).2.2.1 rfl).1,
   ((dcDestructor_frees_once allOkSetupEnv DCEnactorInit).2.2.2 (by decide)).1,
   ((dcDestructor_frees_once allOkSetupEnv DCEnactorInit).2.2.2 (by decide)).2⟩

/-- Claim C1: when every step before the overflow check succeeds and the
frontier queue's recorded write offset exceeds the configured capacity,
`EnactDC` returns the fatal overflow status (`cudaErrorInvalidConfiguration`,
the code the spec names QueueOverflowError), the run is reported as
failed (a non-success status, so the caller's all-or-nothing contract
discards partial results), and the advance kernel is not retried: it was
launched exactly once. -/
theorem enactDC_overflow_fatal (mode : AdvanceMode) (degrees : List Nat)
    (topNodes : Nat) (env : EnactDCEnv)
    (hs : env.setupResult = CudaError.cudaSuccess)
    (hb : env.baseSetupResult = CudaError.cudaSuccess)
    (hm : env.scannedEdgesMalloc = CudaError.cudaSuccess)
    (ha : env.advanceSync = CudaError.cudaSuccess)
    (hq : env.getQueueLength = CudaError.cudaSuccess)
    (hc : env.checkOverflowCall = CudaError.cudaSuccess)
    (hover : env.frontierCapacity < env.frontierWriteOffset) :
    (EnactDC mode degrees topNodes env).retval = CudaError.cudaErrorInvalidConfiguration
  ∧ (EnactDC mode degrees topNodes env).retval ≠ CudaError.cudaSuccess
  ∧ (EnactDC mode degrees topNodes env).advanceLaunches = 1 := by
  unfold EnactDC
  simp [hs, hb, hm, ha, hq, hc, CheckOverflow, hover, GRError]

theorem enactDC_overflow_fatal_witness :
    (EnactDC AdvanceMode.LB [1] 1 overflowEnactEnv).retval =
      CudaError.cudaErrorInvalidConfiguration
  ∧ (EnactDC AdvanceMode.LB [1] 1 overflowEnactEnv).advanceLaunches = 1 :=
  ⟨(enactDC_overflow_fatal AdvanceMode.LB [1] 1 overflowEnactEnv
      rfl rfl rfl rfl rfl rfl (by decide)).1,
   (enactDC_overflow_fatal AdvanceMode.LB [1] 1 overflowEnactEnv
      rfl rfl rfl rfl rfl rfl (by decide)).2.2⟩

/-- Claim C3: `Enact` on a device below sm 300 fails immediately with
`cudaErrorInvalidDeviceFunction` and never reaches `EnactDC` (no kernel
launched); on a device at sm 300 or above it selects the tuned kernel
policy and proceeds to `EnactDC`, whose status it returns. -/
theorem enact_policy_selection (smVersion : Nat) (degrees : List Nat)
    (topNodes : Nat) (env : EnactDCEnv) :
    (smVersion < 300 →
      Enact smVersion degrees topNodes env =
        { retval := CudaError.cudaErrorInvalidDeviceFunction
          enactDCCalled := false
          advanceLaunches := 0 })
  ∧ (300 ≤ smVersion →
      (Enact smVersion degrees topNodes env).enactDCCalled = true ∧
      (Enact smVersion degrees topNodes env).retval =
        (EnactDC dcAdvanceKernelPolicyMode degrees topNodes env).retval) := by
  constructor
  · intro h
    unfold Enact
    rw [if_neg (by omega)]
  · intro h
    unfold Enact
    rw [if_pos h]
    exact ⟨rfl, rfl⟩

theorem enact_policy_selection_witness :
    Enact 210 [1] 1 allOkEnactEnv =
      { retval := CudaError.cudaErrorInvalidDeviceFunction
        enactDCCalled := false
        advanceLaunches := 0 }
  ∧ (Enact 300 [1] 1 allOkEnactEnv).enactDCCalled = true :=
  ⟨(enact_policy_selection 210 [1] 1 allOkEnactEnv).1 (by decide),
   ((enact_policy_selection 300 [1] 1 allOkEnactEnv).2 (by decide)).1⟩

/-- Claim C7: whenever `EnactDC` launches the advance kernel, the
frontier read buffer index is the selector, the write buffer index is
`selector ^ 1`, the selector is 0 or 1, and the two indices differ, so
the round's read buffer is never its write buffer. -/
theorem advance_double_buffer (mode : AdvanceMode) (degrees : List Nat)
    (topNodes : Nat) (env : EnactDCEnv)
    (h : 1 ≤ (EnactDC mode degrees topNodes env).advanceLaunches) :
    ∃ s, (EnactDC mode degrees topNodes env).advanceReadBuffer = some s
       ∧ (EnactDC mode degrees topNodes env).advanceWriteBuffer = some (s ^^^ 1)
       ∧ (s = 0 ∨ s = 1)
       ∧ s ^^^ 1 ≠ s := by
  unfold EnactDC at h ⊢
  split_ifs at h ⊢ <;>
    first
      | exact ⟨0, rfl, rfl, Or.inl rfl, by decide⟩
      | simp_all

theorem advance_double_buffer_witness :
    ∃ s, (EnactDC AdvanceMode.LB [1] 1 allOkEnactEnv).advanceReadBuffer = some s
       ∧ (EnactDC AdvanceMode.LB [1] 1 allOkEnactEnv).advanceWriteBuffer = some (s ^^^ 1)
       ∧ (s = 0 ∨ s = 1)
       ∧ s ^^^ 1 ≠ s :=
  advance_double_buffer AdvanceMode.LB [1] 1 allOkEnactEnv (by decide)

/-- Claim C10: `d_scanned_edges` is allocated only under the LB advance
mode, and on every path of the `do {} while(0)` structure that reaches
the function's epilogue — the success path and every `break` error path
— an allocated `d_scanned_edges` is freed before `EnactDC` returns. -/
theorem scanned_edges_lifecycle (mode : AdvanceMode) (degrees : List Nat)
    (topNodes : Nat) (env : EnactDCEnv) :
    ((EnactDC mode degrees topNodes env).scannedEdgesAllocated = true →
      mode = AdvanceMode.LB)
  ∧ ((EnactDC mode degrees topNodes env).scannedEdgesAllocated = true →
      (EnactDC mode degrees topNodes env).scannedEdgesFreed = true)
  ∧ (mode ≠ AdvanceMode.LB →
      (EnactDC mode degrees topNodes env).scannedEdgesAllocated = false) := by
  unfold EnactDC
  split_ifs <;> simp_all

theorem scanned_edges_lifecycle_witness :
    (EnactDC AdvanceMode.LB [1] 1 allOkEnactEnv).scannedEdgesFreed = true
  ∧ (EnactDC AdvanceMode.TWC_FORWARD [1] 1 allOkEnactEnv).scannedEdgesAllocated = false :=
  ⟨(scanned_edges_lifecycle AdvanceMode.LB [1] 1 allOkEnactEnv).2.1 (by decide),
   (scanned_edges_lifecycle AdvanceMode.TWC_FORWARD [1] 1 allOkEnactEnv).2.2 (by decide)⟩

/-- Claim C2: the top-K extraction sorts the (degree, vertex-id) pairs
descending by degree — the sorted array is a permutation of the input
and every entry among the first `K` has degree at least that of every
entry at position `K` or later, so the first `K` entries are the `K`
highest-degree vertices; on the 5-node example with degrees
[1,3,2,4,0] and K = 2 the selected vertices are 3 and 1 (degrees 4 and
3, ties by lower vertex id first) with subgraph row offsets [0,4]; and
the `d_sub_row_offsets` array the scan produces equals the exclusive
prefix sum of the selected vertices' degrees, the induced subgraph's
row offsets as the spec words them. -/
theorem dc_topk_correct (degrees : List Nat) (K : Nat)
    (_hK1 : 1 ≤ K) (hK2 : K ≤ degrees.length) :
    (CUBRadixSortPairs (degreeNodePairs degrees)).Perm (degreeNodePairs degrees)
  ∧ (∀ i j : Fin (CUBRadixSortPairs (degreeNodePairs degrees)).length,
      i.val < K → K ≤ j.val →
      ((CUBRadixSortPairs (degreeNodePairs degrees)).get j).1 ≤
        ((CUBRadixSortPairs (degreeNodePairs degrees)).get i).1)
  ∧ dcTopKSelected [1, 3, 2, 4, 0] 2 = [(4, 3), (3, 1)]
  ∧ d_sub_row_offsets [1, 3, 2, 4, 0] 2 = [0, 4]
  ∧ d_sub_row_offsets degrees K = specInducedRowOffsets degrees K := by
  refine ⟨List.perm_insertionSort degreeDesc _, ?_, by decide, by decide, ?_⟩
  · intro i j hi hj
    have hsorted : List.Sorted degreeDesc (CUBRadixSortPairs (degreeNodePairs degrees)) :=
      List.sorted_insertionSort degreeDesc _
    exact hsorted.rel_get_of_lt (Fin.lt_def.mpr (lt_of_lt_of_le hi hj))
  · have hlen : (CUBRadixSortPairs (degreeNodePairs degrees)).length = degrees.length := by
      rw [length_CUBRadixSortPairs]
      simp [degreeNodePairs, d_node_id]
    have hmt : ((dcTopKSelected degrees K).map Prod.fst) =
        ((CUBRadixSortPairs (degreeNodePairs degrees)).map Prod.fst).take K := by
      simp [dcTopKSelected, List.map_take]
    have hlen2 : (((CUBRadixSortPairs (degreeNodePairs degrees)).map Prod.fst).take K).length = K := by
      simp only [List.length_take, List.length_map, hlen]
      omega
    unfold d_sub_row_offsets ExclusiveSum specInducedRowOffsets
    rw [exclusiveSumFrom_eq, hmt, hlen2]
    simp

theorem dc_topk_correct_witness :
    dcTopKSelected [1, 3, 2, 4, 0] 2 = [(4, 3), (3, 1)]
  ∧ d_sub_row_offsets [1, 3, 2, 4, 0] 2 = [0, 4] :=
  ⟨(dc_topk_correct [1, 3, 2, 4, 0] 2 (by decide) (by decide)).2.2.1,
   (dc_topk_correct [1, 3, 2, 4, 0] 2 (by decide) (by decide)).2.2.2.1⟩

end Gunrock
